import Mathlib

/-!
Shallow embedding of `src/index.ts` of the `supabase-nextjs-image-api`
package, together with theorems checking its specification.

The TypeScript module is a stateless per-request pipeline:
`loadImageSafely` validates the request, calls `getStreamableImage`
(type detection from the path, storage download, sharp-based resize
decision, JPEG re-encode plan) and writes an HTTP response, catching
every thrown error at a single boundary.

Modelling choices:
* JavaScript numbers are modelled by `ℚ` (the ratio arithmetic is exact
  there for the integer inputs involved); `Math.round` is `⌊q + 1/2⌋`.
* The storage client, the sharp metadata probe, and the stream events
  are oracles collected in an `Env` value; the pipeline is a pure
  function of the oracle, the request and the options.
* Side effects are reified as event lists: storage downloads as
  `FetchEvent`s, writes to the HTTP response as `HttpEvent`s.
* JS `String.prototype.endsWith` is the suffix relation on the
  character sequence, `String.prototype.includes` the infix relation.
-/

namespace SupabaseImageApi

/-- JavaScript `Math.round`: round half toward positive infinity,
`⌊q + 1/2⌋` (all values rounded in this development are non-negative). -/
def jsRound (q : ℚ) : ℤ := ⌊q + 1 / 2⌋

/-- Value of one base64 alphabet character; `none` for characters outside
the alphabet (Node's decoder skips them, padding `=` included). -/
def base64Val (c : Char) : Option Nat :=
  if 'A' ≤ c ∧ c ≤ 'Z' then some (c.toNat - 65)
  else if 'a' ≤ c ∧ c ≤ 'z' then some (c.toNat - 97 + 26)
  else if '0' ≤ c ∧ c ≤ '9' then some (c.toNat - 48 + 52)
  else if c = '+' then some 62
  else if c = '/' then some 63
  else none

/-- Reassemble decoded 6-bit groups into bytes, as `Buffer.from(s, "base64")`
does: four sextets give three bytes, a trailing group of three gives two
bytes, of two gives one byte, a lone trailing sextet is dropped. -/
def base64Assemble : List Nat → List Nat
  | a :: b :: c :: d :: rest =>
      (a * 4 + b / 16) :: (b % 16 * 16 + c / 4) :: (c % 4 * 64 + d) ::
        base64Assemble rest
  | [a, b, c] => [a * 4 + b / 16, b % 16 * 16 + c / 4]
  | [a, b] => [a * 4 + b / 16]
  | _ => []

/-- `Buffer.from(s, "base64")` as a byte list. -/
def base64Decode (s : String) : List Nat :=
  base64Assemble (s.data.filterMap base64Val)

/-- `TRANSPARENT_IMAGE_GIF_BYTES` (src/index.ts:5-8): the fixed 1×1
transparent GIF fallback asset. -/
def TRANSPARENT_IMAGE_GIF_BYTES : List Nat :=
  base64Decode "R0lGODlhAQABAIAAAAAAAAAAACH5BAEAAAAALAAAAAABAAEAAAICRAEAOw="

/-- JS `s.toLowerCase()` as a character-wise map (the paths and
extensions at issue are ASCII, where the two agree). -/
def jsToLower (s : String) : String :=
  String.mk (s.data.map Char.toLower)

/-- JS `s.endsWith(suffix)`: `suffix` is a suffix of `s`'s character
sequence. -/
def jsEndsWith (s suffix : String) : Bool :=
  decide (suffix.data <:+ s.data)

/-- JS `s.includes(sub)`: `sub` occurs as a contiguous substring of `s`. -/
def jsIncludes (s sub : String) : Bool :=
  decide (sub.data <:+: s.data)

/-- `deriveImageTypeFromPath` (src/index.ts:35-53). -/
def deriveImageTypeFromPath (path : String) : String :=
  let lPath := jsToLower path
  if jsEndsWith lPath ".jpeg" || jsEndsWith lPath ".jpg" then "jpg"
  else if jsEndsWith lPath ".gif" then "gif"
  else if jsEndsWith lPath ".png" then "png"
  else if jsEndsWith lPath ".heic" then "heic"
  else if jsEndsWith lPath ".tiff" then "tiff"
  else if jsEndsWith lPath ".webp" then "webp"
  else "unknown"

/-- `SupabaseImageData` (src/index.ts:56-59). -/
structure SupabaseImageData where
  bucket : String
  path : String
deriving DecidableEq

/-- `ImageLoaderOptions` (src/index.ts:61-68); the optional
`standardCacheTime` stays an `Option` because the code never substitutes
a default for a missing value. -/
structure ImageLoaderOptions where
  maxSizeBytes : Nat
  maxSizeWidth : Nat
  quality : Nat
  progressive : Bool
  standardCacheTime : Option Nat
  sharpen : Bool
deriving DecidableEq

def oneKbInBytes : Nat := 1024

def hundredKbs : Nat := 100 * oneKbInBytes

/-- `STANDARD_CACHE_TIME` (src/index.ts:73): 5 days in seconds. -/
def STANDARD_CACHE_TIME : Nat := 60 * 60 * 24 * 5

/-- `THUMBNAIL_IMAGE_LOADER_OPTIONS` (src/index.ts:74-80); `sharpen` is
not set there, i.e. `undefined`, i.e. falsy. -/
def THUMBNAIL_IMAGE_LOADER_OPTIONS : ImageLoaderOptions :=
  { maxSizeBytes := hundredKbs * 2
    maxSizeWidth := 120
    quality := 60
    progressive := true
    standardCacheTime := some STANDARD_CACHE_TIME
    sharpen := false }

/-- `FULL_IMAGE_LOADER_OPTIONS` (src/index.ts:82-88). -/
def FULL_IMAGE_LOADER_OPTIONS : ImageLoaderOptions :=
  { maxSizeBytes := hundredKbs * 10
    maxSizeWidth := 2500
    quality := 94
    progressive := true
    standardCacheTime := some STANDARD_CACHE_TIME
    sharpen := false }

/-- The errors thrown across the pipeline (`throw new Error(...)` sites in
src/index.ts). -/
inductive ImgError where
  | unknownImageType (path : String)
  | imageNotFound (errInfo : String)
  | blobNotRetrieved (errInfo : String)
  | noWidth
  | invalidImageData
deriving DecidableEq

/-- One escaped character of a JSON string literal. -/
def jsonEscapeChar (c : Char) : String :=
  if c = '\\' then "\\\\"
  else if c = '"' then "\\\""
  else String.singleton c

/-- `JSON.stringify({bucket, path})` (src/index.ts:19-22). -/
def stringifyBucketPath (bucket path : String) : String :=
  "\x7b\"bucket\":\"" ++ String.join (bucket.data.map jsonEscapeChar) ++
    "\",\"path\":\"" ++ String.join (path.data.map jsonEscapeChar) ++ "\"\x7d"

/-- `e + ""` in JS on an `Error` yields `"Error: " ++ message`; these are the
message strings thrown in src/index.ts. -/
def errString : ImgError → String
  | .unknownImageType path => "Error: Unknown image type: " ++ path
  | .imageNotFound errInfo => "Error: Image not found > " ++ errInfo
  | .blobNotRetrieved errInfo => "Error: Blob was not retrieved > " ++ errInfo
  | .noWidth => "Error: Not possible to retrieve image width"
  | .invalidImageData => "Error: Invalid image data"

/-- Oracle outcome of `serverClient.storage.from(bucket).download(path)`
(src/index.ts:15-17): backend error, success without a blob, or a blob
of the given byte length. -/
inductive FetchResult where
  | storageError
  | noBlob
  | ok (byteLength : Nat)
deriving DecidableEq

/-- Events the lazy sharp output stream can emit while piped to the
response (src/index.ts:184-189). -/
inductive StreamEvent where
  | dataChunk
  | endEv
  | errorEv
deriving DecidableEq

/-- The oracle for one request: what the storage download returns, what
`sharp(buffer).metadata()` reports as `width` (`none` models a missing
field), and which events the output stream emits. -/
structure Env where
  fetchResult : FetchResult
  metaWidth : Option Nat
  streamEvents : List StreamEvent

/-- A storage download that was actually issued. -/
inductive FetchEvent where
  | download (bucket path : String)
deriving DecidableEq

/-- The sharp processing plan built by `getStreamableImage`
(src/index.ts:120-153): whether `.rotate()` ran, the argument of
`.resize(...)` if it was called, whether `.sharpen({sigma: 0.9})` ran,
and the `.jpeg({quality, progressive})` settings. -/
structure SharpPlan where
  rotate : Bool
  resizeWidth : Option Int
  sharpen : Bool
  quality : Nat
  progressive : Bool
deriving DecidableEq

/-- Width of the encoded output: the `.resize` argument when a resize was
requested, the original width otherwise (sharp re-encodes at the input
width when `.resize` is not called). -/
def SharpPlan.outputWidth (plan : SharpPlan) (originalWidth : Nat) : Int :=
  plan.resizeWidth.getD originalWidth

/-- `getStreamableImage` (src/index.ts:90-154), as a pure function of the
oracle: the result (a plan, or the thrown error) paired with the list of
storage downloads issued on the way. `metaWidth = some 0` fails like
`none` because the guard is the JS falsy test `!imageMeta.width`. -/
def getStreamableImage (env : Env) (imageData : SupabaseImageData)
    (options : ImageLoaderOptions) :
    Except ImgError SharpPlan × List FetchEvent :=
  if deriveImageTypeFromPath imageData.path = "unknown" then
    (.error (.unknownImageType imageData.path), [])
  else
    let errInfo := stringifyBucketPath imageData.bucket imageData.path
    let evs := [FetchEvent.download imageData.bucket imageData.path]
    match env.fetchResult with
    | .storageError => (.error (.imageNotFound errInfo), evs)
    | .noBlob => (.error (.blobNotRetrieved errInfo), evs)
    | .ok byteLength =>
      match env.metaWidth with
      | none => (.error .noWidth, evs)
      | some width =>
        if width = 0 then (.error .noWidth, evs) else
        if options.maxSizeBytes < byteLength ∨ options.maxSizeWidth < width then
          let downscaleFactorBytesEstimated : ℚ :=
            min 1 ((options.maxSizeBytes : ℚ) / (byteLength : ℚ))
          let downScaleFactorWidthEstimated : ℚ :=
            min 1 ((options.maxSizeWidth : ℚ) / (width : ℚ))
          let factor :=
            min downScaleFactorWidthEstimated downscaleFactorBytesEstimated
          (.ok { rotate := true
                 resizeWidth := some (jsRound ((width : ℚ) * factor))
                 sharpen := options.sharpen
                 quality := options.quality
                 progressive := options.progressive }, evs)
        else
          (.ok { rotate := false
                 resizeWidth := none
                 sharpen := options.sharpen
                 quality := options.quality
                 progressive := options.progressive }, evs)

/-- Writes performed on the `NextApiResponse`. -/
inductive HttpEvent where
  | writeHead (status : Nat) (headers : List (String × String))
  | streamBody (plan : SharpPlan)
  | endBinary (body : List Nat)
  | statusSend (status : Nat) (body : String)
deriving DecidableEq

/-- An error-path write: any status other than the success head, a
`status(..).send(..)` message, or the fallback body. -/
def HttpEvent.isErrorWrite : HttpEvent → Bool
  | .writeHead status _ => decide (status ≠ 200)
  | .streamBody _ => false
  | .endBinary _ => true
  | .statusSend _ _ => true

/-- Status chosen by the catch block (src/index.ts:193-200). -/
def classifyCode (errStr : String) : Nat :=
  if jsIncludes errStr "Image not found" then 404 else 500

/-- Message chosen by the catch block (src/index.ts:193-200). -/
def classifyMessage (errStr : String) : String :=
  if jsIncludes errStr "Image not found" then "Image not found"
  else "Internal server error"

/-- Value interpolated into `"max-age=" + options.standardCacheTime`
(src/index.ts:181): JS string concatenation prints a missing field as
`undefined`. -/
def cacheTimeString : Option Nat → String
  | none => "undefined"
  | some t => toString t

/-- The success headers (src/index.ts:178-182). -/
def successHeaders (options : ImageLoaderOptions) : List (String × String) :=
  [("Content-Type", "image/jpg"),
   ("Cache-control", "max-age=" ++ cacheTimeString options.standardCacheTime)]

/-- The catch block's response (src/index.ts:202-212). -/
def errorHttpEvents (e : ImgError) (useTransparentImageFallback : Bool) :
    List HttpEvent :=
  let errStr := errString e
  if useTransparentImageFallback then
    [HttpEvent.writeHead (classifyCode errStr)
      [("Content-Type", "image/gif"),
       ("Content-Length", toString TRANSPARENT_IMAGE_GIF_BYTES.length),
       ("Cache-control", "no-cache")],
     HttpEvent.endBinary TRANSPARENT_IMAGE_GIF_BYTES]
  else
    [HttpEvent.statusSend (classifyCode errStr) (classifyMessage errStr)]

/-- The try block up to and including `getStreamableImage`: the empty
bucket/path validation (src/index.ts:168-170) throws before any I/O. -/
def runPipeline (env : Env) (imageData : SupabaseImageData)
    (options : ImageLoaderOptions) :
    Except ImgError SharpPlan × List FetchEvent :=
  if imageData.bucket = "" ∨ imageData.path = "" then
    (.error .invalidImageData, [])
  else getStreamableImage env imageData options

/-- The streaming phase `new Promise<void>((resolve) => {...})`
(src/index.ts:184-189): the executor registers `resolve` on the stream's
`end` event only and exposes no rejection path, so the promise either
resolves (`some ()`) once `end` fires or never settles (`none`); there is
no rejected outcome. -/
def streamPromiseOutcome (events : List StreamEvent) : Option Unit :=
  if events.contains StreamEvent.endEv then some () else none

/-- Everything observable about one `loadImageSafely` call. -/
structure SafeLoadOutcome where
  fetchEvents : List FetchEvent
  httpEvents : List HttpEvent
  onErrorArg : Option ImgError
  settled : Bool
deriving DecidableEq

/-- `loadImageSafely` (src/index.ts:156-214) as a pure function of the
oracle: validation and pipeline, then either the success head plus the
piped body, or the catch block's classification (`onError` receives the
raw error first). -/
def loadImageSafely (env : Env) (imageData : SupabaseImageData)
    (options : ImageLoaderOptions) (useTransparentImageFallback : Bool) :
    SafeLoadOutcome :=
  match runPipeline env imageData options with
  | (.ok plan, evs) =>
      { fetchEvents := evs
        httpEvents := [HttpEvent.writeHead 200 (successHeaders options),
                       HttpEvent.streamBody plan]
        onErrorArg := none
        settled := (streamPromiseOutcome env.streamEvents).isSome }
  | (.error e, evs) =>
      { fetchEvents := evs
        httpEvents := errorHttpEvents e useTransparentImageFallback
        onErrorArg := some e
        settled := true }

/-! ### Helper lemmas -/

/-- Two lists that cannot be suffixes of one another are never both
suffixes of the same list. -/
lemma not_suffix_of_suffix {l a b : List Char}
    (hab : (decide (a <:+ b) || decide (b <:+ a)) = false)
    (ha : a <:+ l) : ¬b <:+ l := by
  intro hb
  rcases List.suffix_or_suffix_of_suffix ha hb with h | h <;> simp_all

/-- `jsEndsWith` in propositional form. -/
lemma jsEndsWith_iff {s t : String} :
    jsEndsWith s t = true ↔ t.data <:+ s.data := by
  simp [jsEndsWith]

/-- Inversion for a successful `getStreamableImage` run: the probed width
is positive, and the plan is determined by the two budget checks. -/
lemma getStreamableImage_ok_inv (env : Env) (imageData : SupabaseImageData)
    (options : ImageLoaderOptions) (byteLength width : Nat) (plan : SharpPlan)
    (evs : List FetchEvent)
    (hfetch : env.fetchResult = .ok byteLength)
    (hmeta : env.metaWidth = some width)
    (hok : getStreamableImage env imageData options = (.ok plan, evs)) :
    0 < width ∧
    ((options.maxSizeBytes < byteLength ∨ options.maxSizeWidth < width) →
      plan = { rotate := true
               resizeWidth := some (jsRound ((width : ℚ) *
                 min (min 1 ((options.maxSizeWidth : ℚ) / (width : ℚ)))
                     (min 1 ((options.maxSizeBytes : ℚ) / (byteLength : ℚ)))))
               sharpen := options.sharpen
               quality := options.quality
               progressive := options.progressive }) ∧
    (¬(options.maxSizeBytes < byteLength ∨ options.maxSizeWidth < width) →
      plan = { rotate := false
               resizeWidth := none
               sharpen := options.sharpen
               quality := options.quality
               progressive := options.progressive }) := by
  obtain ⟨fr, mw, se⟩ := env
  dsimp only at hfetch hmeta
  subst hfetch
  subst hmeta
  unfold getStreamableImage at hok
  split at hok
  · simp at hok
  · dsimp only at hok
    split at hok
    · simp at hok
    · refine ⟨Nat.pos_of_ne_zero (by assumption), ?_, ?_⟩ <;> intro hcond <;>
        split at hok <;> simp_all [Prod.ext_iff]

/-- The rounded width never exceeds the width budget when the factor is at
most `maxSizeWidth / width`. -/
lemma jsRound_mul_le (maxW w : Nat) (f : ℚ) (hw : 0 < w)
    (hf : f ≤ (maxW : ℚ) / (w : ℚ)) :
    jsRound ((w : ℚ) * f) ≤ (maxW : ℤ) := by
  have hwq : (0 : ℚ) < (w : ℚ) := by exact_mod_cast hw
  have hcancel : (w : ℚ) * ((maxW : ℚ) / (w : ℚ)) = (maxW : ℚ) := by
    field_simp
  have h1 : (w : ℚ) * f ≤ (maxW : ℚ) := by
    calc (w : ℚ) * f ≤ (w : ℚ) * ((maxW : ℚ) / (w : ℚ)) :=
          mul_le_mul_of_nonneg_left hf hwq.le
      _ = (maxW : ℚ) := hcancel
  have h2 : jsRound ((w : ℚ) * f) ≤ ⌊(maxW : ℚ) + 1 / 2⌋ := by
    unfold jsRound
    exact Int.floor_mono (by linarith)
  have h3 : ⌊(maxW : ℚ) + 1 / 2⌋ = (maxW : ℤ) := by
    have hcast : (maxW : ℚ) + 1 / 2 = ((maxW : ℤ) : ℚ) + 1 / 2 := by push_cast; ring
    rw [hcast, Int.floor_int_add]
    have : ⌊(1 / 2 : ℚ)⌋ = 0 := by norm_num
    omega
  omega

/-! ### C6: unknown extension fails before any fetch -/

/-- C6: For every path whose extension is not recognized, the pipeline
fails with the unsupported-type error before any storage download is
issued: `getStreamableImage` returns the `unknownImageType` error and an
empty download-event list. -/
theorem unknown_type_no_fetch_spec (env : Env) (imageData : SupabaseImageData)
    (options : ImageLoaderOptions)
    (h : deriveImageTypeFromPath imageData.path = "unknown") :
    getStreamableImage env imageData options =
      (.error (.unknownImageType imageData.path), []) := by
  unfold getStreamableImage
  rw [if_pos h]

theorem unknown_type_no_fetch_spec_witness :
    deriveImageTypeFromPath "doc.bmp" = "unknown" ∧
    getStreamableImage ⟨.storageError, none, []⟩ ⟨"imgs", "doc.bmp"⟩
        THUMBNAIL_IMAGE_LOADER_OPTIONS =
      (.error (.unknownImageType "doc.bmp"), []) :=
  ⟨by decide,
   unknown_type_no_fetch_spec ⟨.storageError, none, []⟩ ⟨"imgs", "doc.bmp"⟩
     THUMBNAIL_IMAGE_LOADER_OPTIONS (by decide)⟩

/-! ### C7: empty bucket or path fails synchronously, before I/O -/

/-- C7: For every request whose bucket or path is the empty string, the
responder fails before performing any download, the raw error reaches the
`onError` hook, and the failure is converted into an HTTP error response
like any other caught error (classified 500, since the message is
"Invalid image data"). -/
theorem invalid_request_spec (env : Env) (imageData : SupabaseImageData)
    (options : ImageLoaderOptions) (useTransparentImageFallback : Bool)
    (h : imageData.bucket = "" ∨ imageData.path = "") :
    loadImageSafely env imageData options useTransparentImageFallback =
      { fetchEvents := []
        httpEvents := errorHttpEvents .invalidImageData useTransparentImageFallback
        onErrorArg := some .invalidImageData
        settled := true } ∧
    classifyCode (errString .invalidImageData) = 500 ∧
    classifyMessage (errString .invalidImageData) = "Internal server error" := by
  refine ⟨?_, by decide, by decide⟩
  unfold loadImageSafely runPipeline
  rw [if_pos h]

theorem invalid_request_spec_witness :
    loadImageSafely ⟨.ok 10, some 5, [.endEv]⟩ ⟨"", "a.png"⟩
        THUMBNAIL_IMAGE_LOADER_OPTIONS false =
      { fetchEvents := []
        httpEvents := errorHttpEvents .invalidImageData false
        onErrorArg := some .invalidImageData
        settled := true } ∧
    classifyCode (errString .invalidImageData) = 500 ∧
    classifyMessage (errString .invalidImageData) = "Internal server error" :=
  invalid_request_spec ⟨.ok 10, some 5, [.endEv]⟩ ⟨"", "a.png"⟩
    THUMBNAIL_IMAGE_LOADER_OPTIONS false (Or.inl rfl)

/-! ### C2: error classification by substring, plain-text body -/

/-- C2: Every failure caught by the responder is classified on its string
form: containing "Image not found" gives 404 with message
"Image not found", anything else 500 with "Internal server error"; with
the fallback flag disabled the classified message is sent via
`status(..).send(..)` as the plain-text body. -/
theorem error_classification_spec (env : Env) (imageData : SupabaseImageData)
    (options : ImageLoaderOptions) (e : ImgError) (evs : List FetchEvent)
    (hrun : runPipeline env imageData options = (.error e, evs)) :
    (loadImageSafely env imageData options false).httpEvents =
      [HttpEvent.statusSend
        (if jsIncludes (errString e) "Image not found" then 404 else 500)
        (if jsIncludes (errString e) "Image not found" then "Image not found"
         else "Internal server error")] := by
  unfold loadImageSafely
  rw [hrun]
  rfl

theorem error_classification_spec_witness :
    (loadImageSafely ⟨.storageError, none, []⟩ ⟨"imgs", "a.png"⟩
        THUMBNAIL_IMAGE_LOADER_OPTIONS false).httpEvents =
      [HttpEvent.statusSend 404 "Image not found"] := by
  rw [error_classification_spec ⟨.storageError, none, []⟩ ⟨"imgs", "a.png"⟩
    THUMBNAIL_IMAGE_LOADER_OPTIONS
    (.imageNotFound (stringifyBucketPath "imgs" "a.png"))
    [.download "imgs" "a.png"] rfl]
  decide

/-! ### C3: fallback response carries the fixed transparent GIF -/

/-- C3: Every failure caught with the transparent-image fallback enabled
answers with the classified status (404 or 500), headers
`Content-Type: image/gif`, `Content-Length` equal to the fallback asset's
byte length, `Cache-control: no-cache`, and the constant 1×1 transparent
GIF decoded from its base64 source as the body. -/
theorem fallback_response_spec (env : Env) (imageData : SupabaseImageData)
    (options : ImageLoaderOptions) (e : ImgError) (evs : List FetchEvent)
    (hrun : runPipeline env imageData options = (.error e, evs)) :
    (loadImageSafely env imageData options true).httpEvents =
      [HttpEvent.writeHead (classifyCode (errString e))
        [("Content-Type", "image/gif"),
         ("Content-Length", toString TRANSPARENT_IMAGE_GIF_BYTES.length),
         ("Cache-control", "no-cache")],
       HttpEvent.endBinary TRANSPARENT_IMAGE_GIF_BYTES] ∧
    (classifyCode (errString e) = 404 ∨ classifyCode (errString e) = 500) ∧
    TRANSPARENT_IMAGE_GIF_BYTES =
      base64Decode "R0lGODlhAQABAIAAAAAAAAAAACH5BAEAAAAALAAAAAABAAEAAAICRAEAOw=" ∧
    TRANSPARENT_IMAGE_GIF_BYTES.length = 43 := by
  refine ⟨?_, ?_, rfl, by decide⟩
  · unfold loadImageSafely
    rw [hrun]
    rfl
  · by_cases hb : jsIncludes (errString e) "Image not found" = true
    · exact Or.inl (by simp [classifyCode, hb])
    · exact Or.inr (by simp [classifyCode, hb])

theorem fallback_response_spec_witness :
    (loadImageSafely ⟨.storageError, none, []⟩ ⟨"imgs", "a.png"⟩
        THUMBNAIL_IMAGE_LOADER_OPTIONS true).httpEvents =
      [HttpEvent.writeHead 404
        [("Content-Type", "image/gif"), ("Content-Length", "43"),
         ("Cache-control", "no-cache")],
       HttpEvent.endBinary TRANSPARENT_IMAGE_GIF_BYTES] := by
  rw [(fallback_response_spec ⟨.storageError, none, []⟩ ⟨"imgs", "a.png"⟩
    THUMBNAIL_IMAGE_LOADER_OPTIONS
    (.imageNotFound (stringifyBucketPath "imgs" "a.png"))
    [.download "imgs" "a.png"] rfl).1]
  decide

/-! ### C10: after the 200 head, no error write can follow -/

/-- C10: Once the responder has written the 200 head, the remaining
response consists of the streamed body only: no error status, error
message or fallback body is written, `onError` is never invoked, and the
streaming phase's promise resolves exactly when the stream's `end` event
fires — it has no rejection path, so a mid-stream failure never reaches
the error-classification branch. -/
theorem success_streaming_spec (env : Env) (imageData : SupabaseImageData)
    (options : ImageLoaderOptions) (useTransparentImageFallback : Bool)
    (plan : SharpPlan) (evs : List FetchEvent)
    (hrun : runPipeline env imageData options = (.ok plan, evs)) :
    (loadImageSafely env imageData options useTransparentImageFallback).httpEvents =
      [HttpEvent.writeHead 200 (successHeaders options),
       HttpEvent.streamBody plan] ∧
    (loadImageSafely env imageData options useTransparentImageFallback).onErrorArg =
      none ∧
    (∀ ev ∈ (loadImageSafely env imageData options
        useTransparentImageFallback).httpEvents, ev.isErrorWrite = false) ∧
    (∀ sevs : List StreamEvent,
      (streamPromiseOutcome sevs).isSome = sevs.contains StreamEvent.endEv) := by
  have hload : loadImageSafely env imageData options useTransparentImageFallback =
      { fetchEvents := evs
        httpEvents := [HttpEvent.writeHead 200 (successHeaders options),
                       HttpEvent.streamBody plan]
        onErrorArg := none
        settled := (streamPromiseOutcome env.streamEvents).isSome } := by
    unfold loadImageSafely
    rw [hrun]
  refine ⟨by rw [hload], by rw [hload], ?_, ?_⟩
  · rw [hload]
    intro ev hev
    simp only [List.mem_cons, List.not_mem_nil, or_false] at hev
    rcases hev with rfl | rfl
    · rfl
    · rfl
  · intro sevs
    unfold streamPromiseOutcome
    split <;> simp_all

theorem success_streaming_spec_witness :
    (loadImageSafely ⟨.ok 10, some 5, [.endEv]⟩ ⟨"b", "a.png"⟩
        ⟨100, 100, 80, false, none, false⟩ false).httpEvents =
      [HttpEvent.writeHead 200 (successHeaders ⟨100, 100, 80, false, none, false⟩),
       HttpEvent.streamBody ⟨false, none, false, 80, false⟩] ∧
    (loadImageSafely ⟨.ok 10, some 5, [.endEv]⟩ ⟨"b", "a.png"⟩
        ⟨100, 100, 80, false, none, false⟩ false).onErrorArg = none ∧
    (∀ ev ∈ (loadImageSafely ⟨.ok 10, some 5, [.endEv]⟩ ⟨"b", "a.png"⟩
        ⟨100, 100, 80, false, none, false⟩ false).httpEvents,
      ev.isErrorWrite = false) ∧
    (∀ sevs : List StreamEvent,
      (streamPromiseOutcome sevs).isSome = sevs.contains StreamEvent.endEv) :=
  success_streaming_spec ⟨.ok 10, some 5, [.endEv]⟩ ⟨"b", "a.png"⟩
    ⟨100, 100, 80, false, none, false⟩ false ⟨false, none, false, 80, false⟩
    [.download "b" "a.png"] rfl

/-! ### C4: cache header when `standardCacheTime` is omitted -/

/-- C4 counterexample: at a concrete successful request whose options omit
`standardCacheTime`, the success head carries
`Cache-control: max-age=undefined` — not `max-age=432000`, so no default
is applied. -/
theorem cache_time_default_counterexample :
    (loadImageSafely ⟨.ok 10, some 5, [.endEv]⟩ ⟨"b", "a.png"⟩
        ⟨100, 100, 80, false, none, false⟩ false).httpEvents =
      [HttpEvent.writeHead 200
        [("Content-Type", "image/jpg"), ("Cache-control", "max-age=undefined")],
       HttpEvent.streamBody ⟨false, none, false, 80, false⟩] ∧
    STANDARD_CACHE_TIME = 432000 ∧
    ("max-age=undefined" : String) ≠ "max-age=" ++ toString STANDARD_CACHE_TIME :=
  ⟨rfl, rfl, by decide⟩

/-- C4 (amended): every successful response carries status 200,
`Content-Type: image/jpg` and `Cache-control: max-age=<t>` where `<t>` is
the supplied `standardCacheTime`, printed as `undefined` when the option
is omitted (JS string concatenation; no default is substituted); the
5-day constant 432000 reaches the header only through the presets, which
set `standardCacheTime` explicitly. -/
theorem cache_time_header_spec (env : Env) (imageData : SupabaseImageData)
    (options : ImageLoaderOptions) (useTransparentImageFallback : Bool)
    (plan : SharpPlan) (evs : List FetchEvent)
    (hrun : runPipeline env imageData options = (.ok plan, evs)) :
    (loadImageSafely env imageData options
        useTransparentImageFallback).httpEvents.head? =
      some (HttpEvent.writeHead 200
        [("Content-Type", "image/jpg"),
         ("Cache-control", "max-age=" ++
           cacheTimeString options.standardCacheTime)]) ∧
    (options.standardCacheTime = none →
      cacheTimeString options.standardCacheTime = "undefined") ∧
    (∀ t, options.standardCacheTime = some t →
      cacheTimeString options.standardCacheTime = toString t) ∧
    THUMBNAIL_IMAGE_LOADER_OPTIONS.standardCacheTime = some STANDARD_CACHE_TIME ∧
    FULL_IMAGE_LOADER_OPTIONS.standardCacheTime = some STANDARD_CACHE_TIME ∧
    STANDARD_CACHE_TIME = 432000 := by
  refine ⟨?_, fun h => by rw [h]; rfl, fun t h => by rw [h]; rfl, rfl, rfl, rfl⟩
  · unfold loadImageSafely
    rw [hrun]
    rfl

theorem cache_time_header_spec_witness :
    (loadImageSafely ⟨.ok 10, some 5, [.endEv]⟩ ⟨"b", "a.png"⟩
        ⟨100, 100, 80, false, none, false⟩ false).httpEvents.head? =
      some (HttpEvent.writeHead 200
        [("Content-Type", "image/jpg"),
         ("Cache-control", "max-age=" ++ cacheTimeString
           (⟨100, 100, 80, false, none, false⟩ : ImageLoaderOptions).standardCacheTime)]) ∧
    ((⟨100, 100, 80, false, none, false⟩ : ImageLoaderOptions).standardCacheTime = none →
      cacheTimeString
        (⟨100, 100, 80, false, none, false⟩ : ImageLoaderOptions).standardCacheTime =
        "undefined") ∧
    (∀ t, (⟨100, 100, 80, false, none, false⟩ : ImageLoaderOptions).standardCacheTime =
        some t →
      cacheTimeString
        (⟨100, 100, 80, false, none, false⟩ : ImageLoaderOptions).standardCacheTime =
        toString t) ∧
    THUMBNAIL_IMAGE_LOADER_OPTIONS.standardCacheTime = some STANDARD_CACHE_TIME ∧
    FULL_IMAGE_LOADER_OPTIONS.standardCacheTime = some STANDARD_CACHE_TIME ∧
    STANDARD_CACHE_TIME = 432000 :=
  cache_time_header_spec ⟨.ok 10, some 5, [.endEv]⟩ ⟨"b", "a.png"⟩
    ⟨100, 100, 80, false, none, false⟩ false ⟨false, none, false, 80, false⟩
    [.download "b" "a.png"] rfl

/-! ### C5: images within both budgets are not resized -/

/-- C5: For every valid image whose byte length is within `maxSizeBytes`
and whose width is within `maxSizeWidth`, no resize happens: the output
is re-encoded as JPEG at the requested quality and progressive settings
with the original pixel width. -/
theorem no_resize_within_budget_spec (env : Env) (imageData : SupabaseImageData)
    (options : ImageLoaderOptions) (byteLength width : Nat) (plan : SharpPlan)
    (evs : List FetchEvent)
    (hfetch : env.fetchResult = .ok byteLength)
    (hmeta : env.metaWidth = some width)
    (hbytesLe : byteLength ≤ options.maxSizeBytes)
    (hwidthLe : width ≤ options.maxSizeWidth)
    (hok : getStreamableImage env imageData options = (.ok plan, evs)) :
    plan.resizeWidth = none ∧
    plan.outputWidth width = (width : ℤ) ∧
    plan.quality = options.quality ∧
    plan.progressive = options.progressive := by
  obtain ⟨hw, -, hno⟩ := getStreamableImage_ok_inv env imageData options
    byteLength width plan evs hfetch hmeta hok
  have hplan := hno (by omega)
  subst hplan
  exact ⟨rfl, rfl, rfl, rfl⟩

theorem no_resize_within_budget_spec_witness :
    (10 ≤ 100) ∧ (5 ≤ 100) ∧
    ((⟨false, none, false, 80, false⟩ : SharpPlan).resizeWidth = none ∧
     (⟨false, none, false, 80, false⟩ : SharpPlan).outputWidth 5 = ((5 : Nat) : ℤ) ∧
     (⟨false, none, false, 80, false⟩ : SharpPlan).quality = 80 ∧
     (⟨false, none, false, 80, false⟩ : SharpPlan).progressive = false) :=
  ⟨by decide, by decide,
   no_resize_within_budget_spec ⟨.ok 10, some 5, []⟩ ⟨"b", "a.png"⟩
     ⟨100, 100, 80, false, none, false⟩ 10 5 ⟨false, none, false, 80, false⟩
     [.download "b" "a.png"] rfl rfl (by decide) (by decide) rfl⟩

/-! ### C1: resize width formula and width bound -/

/-- C1: For every image exceeding either budget, the requested output
width is `round(width * min(maxSizeBytes/byteLength, maxSizeWidth/width))`
with each ratio capped at 1, and this output width never exceeds
`maxSizeWidth`. -/
theorem resize_output_width_spec (env : Env) (imageData : SupabaseImageData)
    (options : ImageLoaderOptions) (byteLength width : Nat) (plan : SharpPlan)
    (evs : List FetchEvent)
    (hfetch : env.fetchResult = .ok byteLength)
    (hmeta : env.metaWidth = some width)
    (_hbytes : 0 < byteLength)
    (hok : getStreamableImage env imageData options = (.ok plan, evs))
    (hcond : options.maxSizeBytes < byteLength ∨ options.maxSizeWidth < width) :
    plan.resizeWidth = some (jsRound ((width : ℚ) *
      min (min 1 ((options.maxSizeBytes : ℚ) / (byteLength : ℚ)))
          (min 1 ((options.maxSizeWidth : ℚ) / (width : ℚ))))) ∧
    plan.outputWidth width ≤ (options.maxSizeWidth : ℤ) := by
  obtain ⟨hw, hres, -⟩ := getStreamableImage_ok_inv env imageData options
    byteLength width plan evs hfetch hmeta hok
  have hplan := hres hcond
  subst hplan
  constructor
  · rw [min_comm (min 1 ((options.maxSizeBytes : ℚ) / (byteLength : ℚ)))
      (min 1 ((options.maxSizeWidth : ℚ) / (width : ℚ)))]
  · exact jsRound_mul_le options.maxSizeWidth width _ hw
      (le_trans (min_le_left _ _) (min_le_right _ _))

theorem resize_output_width_spec_witness :
    ((0 : Nat) < 10) ∧ ((50 : Nat) < 100) ∧
    ((⟨true, some (jsRound (((100 : Nat) : ℚ) *
        min (min 1 (((50 : Nat) : ℚ) / ((100 : Nat) : ℚ)))
            (min 1 (((1000 : Nat) : ℚ) / ((10 : Nat) : ℚ))))),
      false, 80, false⟩ : SharpPlan).resizeWidth =
      some (jsRound (((100 : Nat) : ℚ) *
        min (min 1 (((1000 : Nat) : ℚ) / ((10 : Nat) : ℚ)))
            (min 1 (((50 : Nat) : ℚ) / ((100 : Nat) : ℚ))))) ∧
     (⟨true, some (jsRound (((100 : Nat) : ℚ) *
        min (min 1 (((50 : Nat) : ℚ) / ((100 : Nat) : ℚ)))
            (min 1 (((1000 : Nat) : ℚ) / ((10 : Nat) : ℚ))))),
      false, 80, false⟩ : SharpPlan).outputWidth 100 ≤ ((50 : Nat) : ℤ)) :=
  ⟨by decide, by decide,
   resize_output_width_spec ⟨.ok 10, some 100, []⟩ ⟨"b", "a.png"⟩
     ⟨1000, 50, 80, false, none, false⟩ 10 100
     ⟨true, some (jsRound (((100 : Nat) : ℚ) *
        min (min 1 (((50 : Nat) : ℚ) / ((100 : Nat) : ℚ)))
            (min 1 (((1000 : Nat) : ℚ) / ((10 : Nat) : ℚ))))),
      false, 80, false⟩
     [.download "b" "a.png"] rfl rfl (by decide) rfl (Or.inr (by decide))⟩

/-! ### C9: EXIF rotation happens exactly when the resize triggers -/

/-- C9: The `.rotate()` orientation normalization runs if and only if the
resize condition triggers (byte length over `maxSizeBytes` or width over
`maxSizeWidth`); an image within both budgets is re-encoded without
auto-rotation. -/
theorem rotate_iff_resize_spec (env : Env) (imageData : SupabaseImageData)
    (options : ImageLoaderOptions) (byteLength width : Nat) (plan : SharpPlan)
    (evs : List FetchEvent)
    (hfetch : env.fetchResult = .ok byteLength)
    (hmeta : env.metaWidth = some width)
    (hok : getStreamableImage env imageData options = (.ok plan, evs)) :
    plan.rotate = true ↔
      (options.maxSizeBytes < byteLength ∨ options.maxSizeWidth < width) := by
  obtain ⟨hw, hres, hno⟩ := getStreamableImage_ok_inv env imageData options
    byteLength width plan evs hfetch hmeta hok
  by_cases hc : options.maxSizeBytes < byteLength ∨ options.maxSizeWidth < width
  · rw [hres hc]
    simpa using hc
  · rw [hno hc]
    simpa using hc

theorem rotate_iff_resize_spec_witness :
    (⟨false, none, false, 80, false⟩ : SharpPlan).rotate = true ↔
      ((100 : Nat) < 10 ∨ (100 : Nat) < 5) :=
  rotate_iff_resize_spec ⟨.ok 10, some 5, []⟩ ⟨"b", "a.png"⟩
    ⟨100, 100, 80, false, none, false⟩ 10 5 ⟨false, none, false, 80, false⟩
    [.download "b" "a.png"] rfl rfl rfl

/-! ### C8: the type detector as a function of the lowercased suffix -/

/-- The detector only looks at the lowercased path: chain of suffix
tests in source order. -/
lemma derive_eq_jpg_iff (p : String) :
    deriveImageTypeFromPath p = "jpg" ↔
      (".jpg".data <:+ (jsToLower p).data ∨ ".jpeg".data <:+ (jsToLower p).data) := by
  unfold deriveImageTypeFromPath
  simp only [jsEndsWith, Bool.or_eq_true, decide_eq_true_eq]
  split_ifs with h1 h2 h3 h4 h5 h6
  · exact iff_of_true rfl h1.symm
  all_goals exact iff_of_false (by decide) fun h => h1 h.symm

lemma derive_eq_gif_iff (p : String) :
    deriveImageTypeFromPath p = "gif" ↔ ".gif".data <:+ (jsToLower p).data := by
  unfold deriveImageTypeFromPath
  simp only [jsEndsWith, Bool.or_eq_true, decide_eq_true_eq]
  split_ifs with h1 h2 h3 h4 h5 h6
  · refine iff_of_false (by decide) fun hgif => ?_
    rcases h1 with h | h
    · exact not_suffix_of_suffix (by decide) h hgif
    · exact not_suffix_of_suffix (by decide) h hgif
  · exact iff_of_true rfl h2
  all_goals exact iff_of_false (by decide) h2

lemma derive_eq_png_iff (p : String) :
    deriveImageTypeFromPath p = "png" ↔ ".png".data <:+ (jsToLower p).data := by
  unfold deriveImageTypeFromPath
  simp only [jsEndsWith, Bool.or_eq_true, decide_eq_true_eq]
  split_ifs with h1 h2 h3 h4 h5 h6
  · refine iff_of_false (by decide) fun hpng => ?_
    rcases h1 with h | h
    · exact not_suffix_of_suffix (by decide) h hpng
    · exact not_suffix_of_suffix (by decide) h hpng
  · exact iff_of_false (by decide) (not_suffix_of_suffix (by decide) h2)
  · exact iff_of_true rfl h3
  all_goals exact iff_of_false (by decide) h3

lemma derive_eq_heic_iff (p : String) :
    deriveImageTypeFromPath p = "heic" ↔ ".heic".data <:+ (jsToLower p).data := by
  unfold deriveImageTypeFromPath
  simp only [jsEndsWith, Bool.or_eq_true, decide_eq_true_eq]
  split_ifs with h1 h2 h3 h4 h5 h6
  · refine iff_of_false (by decide) fun hx => ?_
    rcases h1 with h | h
    · exact not_suffix_of_suffix (by decide) h hx
    · exact not_suffix_of_suffix (by decide) h hx
  · exact iff_of_false (by decide) (not_suffix_of_suffix (by decide) h2)
  · exact iff_of_false (by decide) (not_suffix_of_suffix (by decide) h3)
  · exact iff_of_true rfl h4
  all_goals exact iff_of_false (by decide) h4

lemma derive_eq_tiff_iff (p : String) :
    deriveImageTypeFromPath p = "tiff" ↔ ".tiff".data <:+ (jsToLower p).data := by
  unfold deriveImageTypeFromPath
  simp only [jsEndsWith, Bool.or_eq_true, decide_eq_true_eq]
  split_ifs with h1 h2 h3 h4 h5 h6
  · refine iff_of_false (by decide) fun hx => ?_
    rcases h1 with h | h
    · exact not_suffix_of_suffix (by decide) h hx
    · exact not_suffix_of_suffix (by decide) h hx
  · exact iff_of_false (by decide) (not_suffix_of_suffix (by decide) h2)
  · exact iff_of_false (by decide) (not_suffix_of_suffix (by decide) h3)
  · exact iff_of_false (by decide) (not_suffix_of_suffix (by decide) h4)
  · exact iff_of_true rfl h5
  all_goals exact iff_of_false (by decide) h5

lemma derive_eq_webp_iff (p : String) :
    deriveImageTypeFromPath p = "webp" ↔ ".webp".data <:+ (jsToLower p).data := by
  unfold deriveImageTypeFromPath
  simp only [jsEndsWith, Bool.or_eq_true, decide_eq_true_eq]
  split_ifs with h1 h2 h3 h4 h5 h6
  · refine iff_of_false (by decide) fun hx => ?_
    rcases h1 with h | h
    · exact not_suffix_of_suffix (by decide) h hx
    · exact not_suffix_of_suffix (by decide) h hx
  · exact iff_of_false (by decide) (not_suffix_of_suffix (by decide) h2)
  · exact iff_of_false (by decide) (not_suffix_of_suffix (by decide) h3)
  · exact iff_of_false (by decide) (not_suffix_of_suffix (by decide) h4)
  · exact iff_of_false (by decide) (not_suffix_of_suffix (by decide) h5)
  · exact iff_of_true rfl h6
  · exact iff_of_false (by decide) h6

lemma derive_eq_unknown_iff (p : String) :
    deriveImageTypeFromPath p = "unknown" ↔
      (¬".jpg".data <:+ (jsToLower p).data ∧ ¬".jpeg".data <:+ (jsToLower p).data ∧
       ¬".gif".data <:+ (jsToLower p).data ∧ ¬".png".data <:+ (jsToLower p).data ∧
       ¬".heic".data <:+ (jsToLower p).data ∧ ¬".tiff".data <:+ (jsToLower p).data ∧
       ¬".webp".data <:+ (jsToLower p).data) := by
  unfold deriveImageTypeFromPath
  simp only [jsEndsWith, Bool.or_eq_true, decide_eq_true_eq]
  split_ifs with h1 h2 h3 h4 h5 h6
  · refine iff_of_false (by decide) ?_
    rintro ⟨hjpg, hjpeg, -⟩
    rcases h1 with h | h
    exacts [hjpeg h, hjpg h]
  · exact iff_of_false (by decide) fun hc => hc.2.2.1 h2
  · exact iff_of_false (by decide) fun hc => hc.2.2.2.1 h3
  · exact iff_of_false (by decide) fun hc => hc.2.2.2.2.1 h4
  · exact iff_of_false (by decide) fun hc => hc.2.2.2.2.2.1 h5
  · exact iff_of_false (by decide) fun hc => hc.2.2.2.2.2.2 h6
  · exact iff_of_true rfl
      ⟨fun h => h1 (Or.inr h), fun h => h1 (Or.inl h), h2, h3, h4, h5, h6⟩

/-- C8: The type detector is a pure function of the path's lowercased
form: paths with the same lowercasing get the same type; the suffixes
`.jpg`/`.jpeg` map to `jpg`, `.gif` to `gif`, `.png` to `png`, `.heic`
to `heic`, `.tiff` to `tiff`, `.webp` to `webp`, and every other path —
paths with no extension included — maps to `unknown`. -/
theorem deriveImageTypeFromPath_spec (p q : String)
    (hcase : jsToLower p = jsToLower q) :
    deriveImageTypeFromPath p = deriveImageTypeFromPath q ∧
    (deriveImageTypeFromPath p = "jpg" ↔
      (jsEndsWith (jsToLower p) ".jpg" = true ∨
       jsEndsWith (jsToLower p) ".jpeg" = true)) ∧
    (deriveImageTypeFromPath p = "gif" ↔ jsEndsWith (jsToLower p) ".gif" = true) ∧
    (deriveImageTypeFromPath p = "png" ↔ jsEndsWith (jsToLower p) ".png" = true) ∧
    (deriveImageTypeFromPath p = "heic" ↔ jsEndsWith (jsToLower p) ".heic" = true) ∧
    (deriveImageTypeFromPath p = "tiff" ↔ jsEndsWith (jsToLower p) ".tiff" = true) ∧
    (deriveImageTypeFromPath p = "webp" ↔ jsEndsWith (jsToLower p) ".webp" = true) ∧
    (deriveImageTypeFromPath p = "unknown" ↔
      (jsEndsWith (jsToLower p) ".jpg" = false ∧
       jsEndsWith (jsToLower p) ".jpeg" = false ∧
       jsEndsWith (jsToLower p) ".gif" = false ∧
       jsEndsWith (jsToLower p) ".png" = false ∧
       jsEndsWith (jsToLower p) ".heic" = false ∧
       jsEndsWith (jsToLower p) ".tiff" = false ∧
       jsEndsWith (jsToLower p) ".webp" = false)) := by
  refine ⟨?_, ?_, ?_, ?_, ?_, ?_, ?_, ?_⟩
  · unfold deriveImageTypeFromPath
    rw [hcase]
  · simpa only [jsEndsWith_iff] using derive_eq_jpg_iff p
  · simpa only [jsEndsWith_iff] using derive_eq_gif_iff p
  · simpa only [jsEndsWith_iff] using derive_eq_png_iff p
  · simpa only [jsEndsWith_iff] using derive_eq_heic_iff p
  · simpa only [jsEndsWith_iff] using derive_eq_tiff_iff p
  · simpa only [jsEndsWith_iff] using derive_eq_webp_iff p
  · simpa only [jsEndsWith, decide_eq_false_iff_not] using derive_eq_unknown_iff p

theorem deriveImageTypeFromPath_spec_witness :
    deriveImageTypeFromPath "Photo.JPeG" = deriveImageTypeFromPath "photo.jpeg" ∧
    deriveImageTypeFromPath "Photo.JPeG" = "jpg" := by
  have h := deriveImageTypeFromPath_spec "Photo.JPeG" "photo.jpeg" (by decide)
  exact ⟨h.1, h.2.1.mpr (Or.inr (by decide))⟩

end SupabaseImageApi
